import Mathlib

/-!
Verification of the authentication and access-control engine of the
autopark repository (`src/src/auth/authentication.py`, class `AuthSystem`).

The SQLite-backed store is embedded as an explicit state value: the `users`
table becomes a list of `User` records, the append-only `auth_logs` table a
list of `AuthLog` records.  Each Python method of `AuthSystem` becomes a pure
state-passing function.  Two effects of the source are made explicit
parameters: the current wall-clock time (`datetime.now()`) is a `Nat`
counted in minutes, and the random salt of `_generate_salt` is passed in by
the caller.  The PBKDF2-HMAC-SHA256 digest of `_hash_password` is modelled
as an abstract function parameter `hash : String → String → String`; every
behaviour of the source depends only on equality of digests, never on their
structure, so the claims are stated relative to an arbitrary hasher.
-/

namespace Autopark

/-- One row of the `users` table (schema in `_init_database`,
authentication.py lines 48-63).  Timestamps are minutes as `Nat`. -/
structure User where
  id : Nat
  username : String
  password_hash : String
  password_salt : String
  role : String
  full_name : Option String
  email : Option String
  is_active : Bool
  last_login : Option Nat
  login_attempts : Nat
  locked_until : Option Nat
deriving DecidableEq

/-- One row of the append-only `auth_logs` table (lines 77-89).  The
timestamp column is assigned by the database and is not modelled. -/
structure AuthLog where
  user_id : Option Nat
  username : String
  action : String
  ip_address : Option String
  user_agent : Option String
  success : Bool
deriving DecidableEq

/-- The capability map returned by `_get_user_permissions` (lines 341-399). -/
structure Permissions where
  can_create : Bool
  can_read : Bool
  can_update : Bool
  can_delete : Bool
  can_manage_users : Bool
  can_manage_personnel : Bool
  can_manage_vehicles : Bool
  can_manage_routes : Bool
  can_manage_journal : Bool
  can_view_reports : Bool
  can_generate_reports : Bool
  can_export_data : Bool
  can_configure_system : Bool
  can_view_logs : Bool
  can_backup_restore : Bool
deriving DecidableEq

/-- The `user_info` dictionary returned by a successful `authenticate`
(lines 263-270). -/
structure UserInfo where
  id : Nat
  username : String
  role : String
  full_name : Option String
  is_admin : Bool
  permissions : Permissions
deriving DecidableEq

/-- The durable state owned by `AuthSystem`: the `users` and `auth_logs`
tables plus the AUTOINCREMENT counter backing `users.id`. -/
structure AuthState where
  users : List User
  logs : List AuthLog
  nextId : Nat
deriving DecidableEq

/-- Lock duration of `_increment_login_attempts`:
`timedelta(minutes=30)` (line 302). -/
def lockoutMinutes : Nat := 30

/-- Role validation of `create_user` (line 180, `role not in ['admin', 'user']`)
and of the `CHECK(role IN ('admin', 'user'))` column constraint (line 54). -/
def validRole (role : String) : Bool :=
  role == "admin" || role == "user"

/-- The `SELECT ... FROM users WHERE username = ? AND is_active = 1` lookup
of `authenticate` (lines 230-235). -/
def findActiveUser (s : AuthState) (username : String) : Option User :=
  s.users.find? fun u => u.username == username && u.is_active

/-- Row lookup by primary key, as in `SELECT ... FROM users WHERE id = ?`. -/
def getById (s : AuthState) (uid : Nat) : Option User :=
  s.users.find? fun u => u.id == uid

/-- The lock test of `authenticate` (lines 247-249): the account is blocked
when `locked_until` is set and `datetime.now() < locked_until`. -/
def lockActive (now : Nat) (u : User) : Bool :=
  match u.locked_until with
  | none => false
  | some t => decide (now < t)

/-- An `UPDATE users SET ... WHERE id = ?` statement: applies `f` to every
row whose `id` matches (the primary key makes at most one row match). -/
def updateUserById (s : AuthState) (uid : Nat) (f : User → User) : AuthState :=
  { s with users := s.users.map fun u => if u.id = uid then f u else u }

/-- `_log_auth_action` (lines 401-412): appends one row to `auth_logs`. -/
def logAuthAction (s : AuthState) (user_id : Option Nat) (username action : String)
    (success : Bool) (ip_address user_agent : Option String) : AuthState :=
  { s with logs := s.logs ++
      [{ user_id := user_id, username := username, action := action,
         ip_address := ip_address, user_agent := user_agent,
         success := success }] }

/-- Second half of `_increment_login_attempts` (lines 297-308): read the
counter back (`SELECT login_attempts ... WHERE id = ?`) and set
`locked_until = now + 30 minutes` when it has reached 5. -/
def lockIfExceeded (now : Nat) (s1 : AuthState) (uid : Nat) : AuthState :=
  match getById s1 uid with
  | none => s1
  | some u =>
      if 5 ≤ u.login_attempts then
        updateUserById s1 uid fun v => { v with locked_until := some (now + lockoutMinutes) }
      else s1

/-- `_increment_login_attempts` (lines 287-312): adds 1 to the counter,
then applies the lock check on the stored value. -/
def incrementLoginAttempts (now : Nat) (s : AuthState) (uid : Nat) : AuthState :=
  lockIfExceeded now
    (updateUserById s uid fun u => { u with login_attempts := u.login_attempts + 1 }) uid

/-- `_reset_login_attempts` (lines 314-325):
`SET login_attempts = 0, locked_until = NULL`. -/
def resetLoginAttempts (s : AuthState) (uid : Nat) : AuthState :=
  updateUserById s uid fun u => { u with login_attempts := 0, locked_until := none }

/-- `_update_last_login` (lines 327-338): `SET last_login = CURRENT_TIMESTAMP`. -/
def updateLastLogin (now : Nat) (s : AuthState) (uid : Nat) : AuthState :=
  updateUserById s uid fun u => { u with last_login := some now }

/-- `_get_user_permissions` (lines 341-399), transcribed flag by flag. -/
def getUserPermissions (role : String) : Permissions :=
  if role == "admin" then
    { can_create := true, can_read := true, can_update := true, can_delete := true,
      can_manage_users := true, can_manage_personnel := true,
      can_manage_vehicles := true, can_manage_routes := true,
      can_manage_journal := true, can_view_reports := true,
      can_generate_reports := true, can_export_data := true,
      can_configure_system := true, can_view_logs := true,
      can_backup_restore := true }
  else
    { can_create := false, can_read := true, can_update := true, can_delete := false,
      can_manage_users := false, can_manage_personnel := false,
      can_manage_vehicles := false, can_manage_routes := false,
      can_manage_journal := true, can_view_reports := true,
      can_generate_reports := true, can_export_data := false,
      can_configure_system := false, can_view_logs := false,
      can_backup_restore := false }

/-- The row inserted by `create_user` (lines 189-192): the schema defaults
supply `is_active = 1`, `login_attempts = 0` and NULL timestamps. -/
def freshUser (hash : String → String → String) (salt : String) (uid : Nat)
    (username password role : String) (full_name email : Option String) : User :=
  { id := uid, username := username, password_hash := hash password salt,
    password_salt := salt, role := role, full_name := full_name,
    email := email, is_active := true, last_login := none,
    login_attempts := 0, locked_until := none }

/-- `create_user` (lines 163-210).  The salt produced by `_generate_salt`
is the explicit argument `salt`.  An existing row with the same username
makes the INSERT raise `sqlite3.IntegrityError` (UNIQUE constraint); that
handler returns `False` without writing an audit entry (lines 204-206). -/
def createUser (hash : String → String → String) (salt : String)
    (s : AuthState) (username password role : String)
    (full_name email : Option String) : Bool × AuthState :=
  if !(validRole role) then
    (false, s)
  else if s.users.any (fun u => u.username == username) then
    (false, s)
  else
    let uid := s.nextId
    let newUser := freshUser hash salt uid username password role full_name email
    let s1 : AuthState := { s with users := s.users ++ [newUser], nextId := uid + 1 }
    (true, logAuthAction s1 (some uid) username "create_user" true none none)

/-- `authenticate` (lines 212-285): active-row lookup, lock check, digest
comparison, then either reset + last-login + success log and the
`user_info` view, or increment + failure log. -/
def authenticate (hash : String → String → String) (now : Nat)
    (s : AuthState) (username password : String)
    (ip_address user_agent : Option String) : Option UserInfo × AuthState :=
  match findActiveUser s username with
  | none =>
      (none, logAuthAction s none username "login" false ip_address user_agent)
  | some u =>
      if lockActive now u then
        (none, logAuthAction s (some u.id) username "login_blocked" false ip_address user_agent)
      else if hash password u.password_salt = u.password_hash then
        let s1 := updateLastLogin now (resetLoginAttempts s u.id) u.id
        let info : UserInfo :=
          { id := u.id, username := u.username, role := u.role,
            full_name := u.full_name, is_admin := u.role == "admin",
            permissions := getUserPermissions u.role }
        (some info, logAuthAction s1 (some u.id) username "login" true ip_address user_agent)
      else
        (none, logAuthAction (incrementLoginAttempts now s u.id)
          (some u.id) username "login" false ip_address user_agent)

/-- `change_password` (lines 414-451): re-runs `authenticate` with the old
password (no origin metadata); on its failure returns `False` at once —
without appending any `change_password` audit entry (lines 429-430).  On
success it stores a fresh salt and digest, clears the lockout state and
appends a success entry.  `newSalt` is the output of `_generate_salt`. -/
def changePassword (hash : String → String → String) (now : Nat) (newSalt : String)
    (s : AuthState) (username old_password new_password : String) : Bool × AuthState :=
  match authenticate hash now s username old_password none none with
  | (none, s1) => (false, s1)
  | (some info, s1) =>
      let new_hash := hash new_password newSalt
      let s2 : AuthState := { s1 with users := s1.users.map fun u =>
        if u.username = username then
          { u with password_hash := new_hash, password_salt := newSalt,
                   login_attempts := 0, locked_until := none }
        else u }
      (true, logAuthAction s2 (some info.id) username "change_password" true none none)

/-- The keyword arguments of `update_user` after the allow-list filter of
lines 537-544: only `full_name`, `email`, `role` and `is_active` survive;
any other keyword is dropped before the UPDATE is built. -/
structure UserUpdate where
  full_name : Option String
  email : Option String
  role : Option String
  is_active : Option Bool
deriving DecidableEq

/-- True when no allow-listed field is supplied
(`if not update_fields: return False`, line 546). -/
def UserUpdate.isEmpty (k : UserUpdate) : Bool :=
  k.full_name.isNone && k.email.isNone && k.role.isNone && k.is_active.isNone

/-- True when the UPDATE would assign a role outside {admin, user}: the
`CHECK(role IN ('admin', 'user'))` constraint then rejects the statement. -/
def roleViolation (k : UserUpdate) : Bool :=
  match k.role with
  | some r => !(validRole r)
  | none => false

/-- The SET clause of `update_user` applied to one row. -/
def applyUpdate (k : UserUpdate) (u : User) : User :=
  let u1 := match k.full_name with
    | some v => { u with full_name := some v }
    | none => u
  let u2 := match k.email with
    | some v => { u1 with email := some v }
    | none => u1
  let u3 := match k.role with
    | some v => { u2 with role := v }
    | none => u2
  match k.is_active with
  | some v => { u3 with is_active := v }
  | none => u3

/-- `update_user` (lines 525-561).  A role value failing the CHECK
constraint makes the UPDATE raise `sqlite3.IntegrityError` when at least
one row matches the WHERE clause; the handler returns `False` and the
failed statement mutates nothing.  With no matching row, or with only
valid values, the UPDATE succeeds and the method returns `True`. -/
def updateUser (s : AuthState) (username : String) (k : UserUpdate) : Bool × AuthState :=
  if k.isEmpty then
    (false, s)
  else if s.users.any (fun u => u.username == username) && roleViolation k then
    (false, s)
  else
    (true, { s with users := s.users.map fun u =>
      if u.username = username then applyUpdate k u else u })

/-- `delete_user` (lines 563-590): `DELETE FROM users WHERE username = ?`,
returning `True` exactly when at least one row was removed. -/
def deleteUser (s : AuthState) (username : String) : Bool × AuthState :=
  let affected := s.users.countP fun u => u.username == username
  let s1 : AuthState := { s with users := s.users.filter fun u => !(u.username == username) }
  if 0 < affected then (true, s1) else (false, s1)

/-- Primary-key invariant of the `users` table: `id` is unique
(`id INTEGER PRIMARY KEY AUTOINCREMENT`, line 50). -/
def UniqueIds (s : AuthState) : Prop :=
  s.users.Pairwise fun a b => a.id ≠ b.id

/-- A concrete hasher used to evaluate the development on closed inputs;
the operations above are stated for an arbitrary hasher. -/
def whash (p s : String) : String := p ++ s

/-- A stored account whose password under `whash` is the string pw1. -/
def cUser : User :=
  { id := 1, username := "bob", password_hash := "pw1S", password_salt := "S",
    role := "user", full_name := none, email := none, is_active := true,
    last_login := none, login_attempts := 0, locked_until := none }

/-- Store holding one unlocked account with zero failed attempts. -/
def cState : AuthState := { users := [cUser], logs := [], nextId := 2 }

/-- The same account at four failed attempts, still unlocked. -/
def cUser4 : User := { cUser with login_attempts := 4 }

/-- Store holding the four-failures account. -/
def cState4 : AuthState := { users := [cUser4], logs := [], nextId := 2 }

/-- The same account locked until minute 200 after five failures. -/
def cUserL : User := { cUser with login_attempts := 5, locked_until := some 200 }

/-- Store holding the locked account. -/
def cStateL : AuthState := { users := [cUserL], logs := [], nextId := 2 }

/-- The empty store. -/
def cState0 : AuthState := { users := [], logs := [], nextId := 1 }

/-! ### List-level helper lemmas -/

theorem find_id_of_mem (l : List User) (u : User)
    (huniq : l.Pairwise fun a b => a.id ≠ b.id) (hu : u ∈ l) :
    l.find? (fun v => v.id == u.id) = some u := by
  induction l with
  | nil => cases hu
  | cons h t ih =>
    rw [List.pairwise_cons] at huniq
    rcases List.mem_cons.mp hu with rfl | hmem
    · exact List.find?_cons_of_pos t (by simp)
    · rw [List.find?_cons_of_neg t (by simp [huniq.1 u hmem])]
      exact ih huniq.2 hmem

theorem find?_map_of_first (p : User → Bool) (f : User → User) (l : List User) (u : User)
    (hp : p (f u) = p u)
    (huniq : l.Pairwise fun a b => a.id ≠ b.id)
    (hfind : l.find? p = some u) :
    (l.map fun v => if v.id = u.id then f v else v).find? p = some (f u) := by
  induction l with
  | nil => cases hfind
  | cons h t ih =>
    rw [List.pairwise_cons] at huniq
    by_cases hph : p h = true
    · rw [List.find?_cons_of_pos t hph] at hfind
      have hhu : h = u := by injection hfind
      subst hhu
      have hmap : (List.map (fun v => if v.id = h.id then f v else v) (h :: t)) =
          f h :: List.map (fun v => if v.id = h.id then f v else v) t := by
        simp
      rw [hmap]
      exact List.find?_cons_of_pos _ (by rw [hp]; exact hph)
    · rw [List.find?_cons_of_neg t hph] at hfind
      have hmem : u ∈ t := List.mem_of_find?_eq_some hfind
      have hid : h.id ≠ u.id := huniq.1 u hmem
      simp only [List.map_cons, if_neg hid]
      rw [List.find?_cons_of_neg _ hph]
      exact ih huniq.2 hfind

theorem find?_append_of_none (l1 l2 : List User) (p : User → Bool)
    (h : ∀ x ∈ l1, p x = false) : (l1 ++ l2).find? p = l2.find? p := by
  induction l1 with
  | nil => rfl
  | cons a t ih =>
    rw [List.cons_append,
      List.find?_cons_of_neg _ (by simp [h a (List.mem_cons_self a t)])]
    exact ih fun x hx => h x (List.mem_cons_of_mem a hx)

/-! ### State-level helper lemmas -/

theorem updateUserById_logs (s : AuthState) (uid : Nat) (f : User → User) :
    (updateUserById s uid f).logs = s.logs := rfl

theorem logAuthAction_users (s : AuthState) (w : Option Nat) (un ac : String)
    (b : Bool) (ip ua : Option String) :
    (logAuthAction s w un ac b ip ua).users = s.users := rfl

theorem getById_logAuthAction (s : AuthState) (w : Option Nat) (un ac : String)
    (b : Bool) (ip ua : Option String) (uid : Nat) :
    getById (logAuthAction s w un ac b ip ua) uid = getById s uid := rfl

theorem findActiveUser_logAuthAction (s : AuthState) (w : Option Nat) (un ac : String)
    (b : Bool) (ip ua : Option String) (username : String) :
    findActiveUser (logAuthAction s w un ac b ip ua) username =
      findActiveUser s username := rfl

theorem findActiveUser_mem (s : AuthState) (username : String) (u : User)
    (h : findActiveUser s username = some u) : u ∈ s.users :=
  List.mem_of_find?_eq_some h

theorem getById_updateUserById (s : AuthState) (u : User) (f : User → User)
    (hfid : (f u).id = u.id)
    (huniq : UniqueIds s) (hu : u ∈ s.users) :
    getById (updateUserById s u.id f) u.id = some (f u) := by
  have h0 : s.users.find? (fun v => v.id == u.id) = some u :=
    find_id_of_mem s.users u huniq hu
  exact find?_map_of_first (fun v => v.id == u.id) f s.users u (by simp [hfid]) huniq h0

theorem uniqueIds_updateUserById (s : AuthState) (uid : Nat) (f : User → User)
    (hf : ∀ v, (f v).id = v.id) (h : UniqueIds s) :
    UniqueIds (updateUserById s uid f) := by
  unfold UniqueIds at h ⊢
  simp only [updateUserById]
  rw [List.pairwise_map]
  refine h.imp ?_
  intro a b hab
  have ha : (if a.id = uid then f a else a).id = a.id := by
    by_cases h1 : a.id = uid <;> simp [h1, hf]
  have hb : (if b.id = uid then f b else b).id = b.id := by
    by_cases h1 : b.id = uid <;> simp [h1, hf]
  rw [ha, hb]
  exact hab

theorem mem_updateUserById (s : AuthState) (u : User) (f : User → User)
    (hu : u ∈ s.users) :
    f u ∈ (updateUserById s u.id f).users := by
  unfold updateUserById
  simp only [List.mem_map]
  exact ⟨u, hu, by simp⟩

theorem findActiveUser_updateUserById (s : AuthState) (username : String)
    (u : User) (f : User → User)
    (hname : (f u).username = u.username) (hact : (f u).is_active = u.is_active)
    (huniq : UniqueIds s) (hfind : findActiveUser s username = some u) :
    findActiveUser (updateUserById s u.id f) username = some (f u) :=
  find?_map_of_first _ f s.users u (by simp [hname, hact]) huniq hfind

/-! ### Lock-state helper lemmas -/

theorem lockActive_none (now : Nat) (u : User) (h : u.locked_until = none) :
    lockActive now u = false := by
  unfold lockActive
  rw [h]

theorem lockActive_expired (now t : Nat) (u : User) (h : u.locked_until = some t)
    (ht : t ≤ now) : lockActive now u = false := by
  unfold lockActive
  rw [h]
  exact decide_eq_false (Nat.not_lt.mpr ht)

theorem lockActive_set (now t : Nat) (u : User) (h : u.locked_until = some t)
    (ht : now < t) : lockActive now u = true := by
  unfold lockActive
  rw [h]
  exact decide_eq_true ht

/-! ### Effect of the failed-attempt counter update -/

theorem lockIfExceeded_eq (now : Nat) (s1 : AuthState) (uid : Nat) (v : User)
    (h : getById s1 uid = some v) :
    lockIfExceeded now s1 uid =
      if 5 ≤ v.login_attempts then
        updateUserById s1 uid fun w => { w with locked_until := some (now + lockoutMinutes) }
      else s1 := by
  unfold lockIfExceeded
  rw [h]

theorem lockIfExceeded_none (now : Nat) (s1 : AuthState) (uid : Nat)
    (h : getById s1 uid = none) :
    lockIfExceeded now s1 uid = s1 := by
  unfold lockIfExceeded
  rw [h]

theorem getById_increment (now : Nat) (s : AuthState) (u : User)
    (huniq : UniqueIds s) (hu : u ∈ s.users) :
    getById (incrementLoginAttempts now s u.id) u.id =
      some (if 5 ≤ u.login_attempts + 1 then
              { u with login_attempts := u.login_attempts + 1,
                       locked_until := some (now + lockoutMinutes) }
            else { u with login_attempts := u.login_attempts + 1 }) := by
  unfold incrementLoginAttempts
  have h1 : getById
      (updateUserById s u.id fun v => { v with login_attempts := v.login_attempts + 1 }) u.id
      = some { u with login_attempts := u.login_attempts + 1 } :=
    getById_updateUserById s u _ rfl huniq hu
  rw [lockIfExceeded_eq now _ u.id _ h1]
  by_cases h5 : 5 ≤ u.login_attempts + 1
  · have h5x : 5 ≤ ({ u with login_attempts := u.login_attempts + 1 } : User).login_attempts := h5
    rw [if_pos h5x, if_pos h5]
    have huniq1 : UniqueIds
        (updateUserById s u.id fun v => { v with login_attempts := v.login_attempts + 1 }) :=
      uniqueIds_updateUserById s u.id _ (fun v => rfl) huniq
    have hmem1 : ({ u with login_attempts := u.login_attempts + 1 } : User) ∈
        (updateUserById s u.id fun v => { v with login_attempts := v.login_attempts + 1 }).users :=
      mem_updateUserById s u _ hu
    exact getById_updateUserById _ { u with login_attempts := u.login_attempts + 1 }
      _ rfl huniq1 hmem1
  · have h5x : ¬ 5 ≤ ({ u with login_attempts := u.login_attempts + 1 } : User).login_attempts := h5
    rw [if_neg h5x, if_neg h5]
    exact h1

theorem increment_no_lock (now : Nat) (s : AuthState) (u : User)
    (huniq : UniqueIds s) (hu : u ∈ s.users)
    (hlt : u.login_attempts + 1 < 5) :
    incrementLoginAttempts now s u.id =
      updateUserById s u.id fun v => { v with login_attempts := v.login_attempts + 1 } := by
  unfold incrementLoginAttempts
  have h1 : getById
      (updateUserById s u.id fun v => { v with login_attempts := v.login_attempts + 1 }) u.id
      = some { u with login_attempts := u.login_attempts + 1 } :=
    getById_updateUserById s u _ rfl huniq hu
  rw [lockIfExceeded_eq now _ u.id _ h1]
  have h5x : ¬ 5 ≤ ({ u with login_attempts := u.login_attempts + 1 } : User).login_attempts :=
    Nat.not_le.mpr hlt
  rw [if_neg h5x]

theorem increment_logs (now : Nat) (s : AuthState) (uid : Nat) :
    (incrementLoginAttempts now s uid).logs = s.logs := by
  unfold incrementLoginAttempts
  cases h : getById
      (updateUserById s uid fun v => { v with login_attempts := v.login_attempts + 1 }) uid with
  | none =>
    rw [lockIfExceeded_none now _ uid h]
    rfl
  | some v =>
    rw [lockIfExceeded_eq now _ uid v h]
    by_cases h5 : 5 ≤ v.login_attempts
    · rw [if_pos h5]
      rfl
    · rw [if_neg h5]
      rfl

/-! ### Path lemmas for authenticate -/

theorem authenticate_notfound (hash : String → String → String) (now : Nat)
    (s : AuthState) (username password : String) (ip ua : Option String)
    (hfind : findActiveUser s username = none) :
    authenticate hash now s username password ip ua =
      (none, logAuthAction s none username "login" false ip ua) := by
  unfold authenticate
  rw [hfind]

theorem authenticate_blocked (hash : String → String → String) (now : Nat)
    (s : AuthState) (username password : String) (ip ua : Option String) (u : User)
    (hfind : findActiveUser s username = some u)
    (hlock : lockActive now u = true) :
    authenticate hash now s username password ip ua =
      (none, logAuthAction s (some u.id) username "login_blocked" false ip ua) := by
  unfold authenticate
  rw [hfind]
  simp [hlock]

theorem authenticate_success_eq (hash : String → String → String) (now : Nat)
    (s : AuthState) (username password : String) (ip ua : Option String) (u : User)
    (hfind : findActiveUser s username = some u)
    (hlock : lockActive now u = false)
    (hmatch : hash password u.password_salt = u.password_hash) :
    authenticate hash now s username password ip ua =
      (some { id := u.id, username := u.username, role := u.role,
              full_name := u.full_name, is_admin := u.role == "admin",
              permissions := getUserPermissions u.role },
       logAuthAction (updateLastLogin now (resetLoginAttempts s u.id) u.id)
         (some u.id) username "login" true ip ua) := by
  unfold authenticate
  rw [hfind]
  simp [hlock, hmatch]

theorem authenticate_wrong_eq (hash : String → String → String) (now : Nat)
    (s : AuthState) (username password : String) (ip ua : Option String) (u : User)
    (hfind : findActiveUser s username = some u)
    (hlock : lockActive now u = false)
    (hwrong : ¬ hash password u.password_salt = u.password_hash) :
    authenticate hash now s username password ip ua =
      (none, logAuthAction (incrementLoginAttempts now s u.id)
        (some u.id) username "login" false ip ua) := by
  unfold authenticate
  rw [hfind]
  simp [hlock, hwrong]

theorem createUser_success_eq (hash : String → String → String) (salt : String)
    (s : AuthState) (username password role : String) (fn em : Option String)
    (hvr : validRole role = true)
    (hnodup : (s.users.any fun u => u.username == username) = false) :
    createUser hash salt s username password role fn em =
      (true, logAuthAction
        { s with
            users := s.users ++ [freshUser hash salt s.nextId username password role fn em],
            nextId := s.nextId + 1 }
        (some s.nextId) username "create_user" true none none) := by
  unfold createUser
  rw [hvr, hnodup]
  rfl

/-! ### Claim theorems -/

/-- C1: for every username not already present in the store and every
role in {admin, user}, `create_user` returns success, and an immediately
following `authenticate` with the same credentials succeeds and returns
a view with that same username, the same role, `is_admin` equal to
(role == admin), and the permission map fixed by the role table: for
admin all fifteen capability flags are true; for user exactly can_read,
can_update, can_manage_journal, can_view_reports and
can_generate_reports are true and the other ten flags are false (each
flag below equals `role == "admin"` except the five that are true for
both roles). -/
theorem c1_create_then_login (hash : String → String → String) (salt : String)
    (now : Nat) (s : AuthState) (username password role : String)
    (fn em ip ua : Option String)
    (hfresh : ∀ v ∈ s.users, v.username ≠ username)
    (hrole : role = "admin" ∨ role = "user") :
    (createUser hash salt s username password role fn em).fst = true ∧
    ∃ info, (authenticate hash now (createUser hash salt s username password role fn em).snd
        username password ip ua).fst = some info ∧
      info.username = username ∧
      info.role = role ∧
      info.is_admin = (role == "admin") ∧
      info.permissions.can_create = (role == "admin") ∧
      info.permissions.can_read = true ∧
      info.permissions.can_update = true ∧
      info.permissions.can_delete = (role == "admin") ∧
      info.permissions.can_manage_users = (role == "admin") ∧
      info.permissions.can_manage_personnel = (role == "admin") ∧
      info.permissions.can_manage_vehicles = (role == "admin") ∧
      info.permissions.can_manage_routes = (role == "admin") ∧
      info.permissions.can_manage_journal = true ∧
      info.permissions.can_view_reports = true ∧
      info.permissions.can_generate_reports = true ∧
      info.permissions.can_export_data = (role == "admin") ∧
      info.permissions.can_configure_system = (role == "admin") ∧
      info.permissions.can_view_logs = (role == "admin") ∧
      info.permissions.can_backup_restore = (role == "admin") := by
  have hvr : validRole role = true := by
    rcases hrole with rfl | rfl <;> rfl
  have hnodup : (s.users.any fun v => v.username == username) = false :=
    List.any_eq_false.mpr fun x hx h => hfresh x hx (beq_iff_eq.mp h)
  have hcreate := createUser_success_eq hash salt s username password role fn em hvr hnodup
  have husers : (createUser hash salt s username password role fn em).snd.users
      = s.users ++ [freshUser hash salt s.nextId username password role fn em] := by
    rw [hcreate]
    rfl
  have hfindnew : findActiveUser (createUser hash salt s username password role fn em).snd username
      = some (freshUser hash salt s.nextId username password role fn em) := by
    unfold findActiveUser
    rw [husers, find?_append_of_none _ _ _
      (fun x hx => by simp [beq_eq_false_iff_ne.mpr (hfresh x hx)])]
    exact List.find?_cons_of_pos _ (by simp [freshUser])
  have hnl : lockActive now (freshUser hash salt s.nextId username password role fn em) = false :=
    lockActive_none now _ rfl
  have hmatch :
      hash password (freshUser hash salt s.nextId username password role fn em).password_salt
      = (freshUser hash salt s.nextId username password role fn em).password_hash := rfl
  have heq := authenticate_success_eq hash now
    (createUser hash salt s username password role fn em).snd username password ip ua
    (freshUser hash salt s.nextId username password role fn em) hfindnew hnl hmatch
  constructor
  · rw [hcreate]
  · refine ⟨_, by rw [heq], rfl, rfl, rfl,
      ?_, ?_, ?_, ?_, ?_, ?_, ?_, ?_, ?_, ?_, ?_, ?_, ?_, ?_, ?_⟩ <;>
      rcases hrole with rfl | rfl <;> rfl

/-- C2: when a failed password check raises an account's failed-attempt
counter to 5, `locked_until` is set to now + 30 minutes; and every
`authenticate` call on an account whose `locked_until` is set with
now < locked_until — even one supplying the correct password — returns
failure without performing the password comparison (the outcome does not
depend on the hasher or on the supplied password) and without
incrementing the counter. -/
theorem c2_lockout_boundary (hash : String → String → String) (now : Nat)
    (s : AuthState) (username password : String) (ip ua : Option String) (u : User)
    (huniq : UniqueIds s)
    (hfind : findActiveUser s username = some u) :
    (u.locked_until = none → u.login_attempts = 4 →
      ¬ hash password u.password_salt = u.password_hash →
      (authenticate hash now s username password ip ua).fst = none ∧
      getById (authenticate hash now s username password ip ua).snd u.id =
        some { u with login_attempts := 5, locked_until := some (now + 30) }) ∧
    (∀ t, u.locked_until = some t → now < t →
      (authenticate hash now s username password ip ua).fst = none ∧
      (authenticate hash now s username password ip ua).snd.users = s.users ∧
      ∀ hash2 : String → String → String, ∀ password2 : String,
        authenticate hash2 now s username password2 ip ua =
          authenticate hash now s username password ip ua) := by
  constructor
  · intro hnone h4 hwrong
    have hnl := lockActive_none now u hnone
    have heq := authenticate_wrong_eq hash now s username password ip ua u hfind hnl hwrong
    refine ⟨by rw [heq], ?_⟩
    have hsnd : (authenticate hash now s username password ip ua).snd =
        logAuthAction (incrementLoginAttempts now s u.id)
          (some u.id) username "login" false ip ua := by
      rw [heq]
    have hu : u ∈ s.users := findActiveUser_mem s username u hfind
    have hg := getById_increment now s u huniq hu
    rw [hsnd, getById_logAuthAction, hg, h4]
    rfl
  · intro t hset hlt
    have hl := lockActive_set now t u hset hlt
    have heq := authenticate_blocked hash now s username password ip ua u hfind hl
    refine ⟨by rw [heq], by rw [heq]; rfl, ?_⟩
    intro hash2 password2
    rw [authenticate_blocked hash2 now s username password2 ip ua u hfind hl, heq]

/-- C3: for every existing, active, not-currently-locked account (an
account satisfying the lockout-tracker invariant that `locked_until` is
only ever set once the counter has reached 5), `authenticate` with the
correct username and a wrong password returns failure, increments the
failed-attempt counter by exactly 1, and leaves the account unlocked
whenever the resulting counter is still below 5. -/
theorem c3_wrong_password_increments (hash : String → String → String) (now : Nat)
    (s : AuthState) (username password : String) (ip ua : Option String) (u : User)
    (huniq : UniqueIds s)
    (hfind : findActiveUser s username = some u)
    (hnolock : lockActive now u = false)
    (hinv : u.locked_until = none ∨ 5 ≤ u.login_attempts)
    (hwrong : ¬ hash password u.password_salt = u.password_hash) :
    (authenticate hash now s username password ip ua).fst = none ∧
    ∃ u1, getById (authenticate hash now s username password ip ua).snd u.id = some u1 ∧
      u1.login_attempts = u.login_attempts + 1 ∧
      (u1.login_attempts < 5 → u1.locked_until = none) := by
  have heq := authenticate_wrong_eq hash now s username password ip ua u hfind hnolock hwrong
  refine ⟨by rw [heq], ?_⟩
  have hsnd : (authenticate hash now s username password ip ua).snd =
      logAuthAction (incrementLoginAttempts now s u.id)
        (some u.id) username "login" false ip ua := by
    rw [heq]
  have hu : u ∈ s.users := findActiveUser_mem s username u hfind
  have hg := getById_increment now s u huniq hu
  rw [hsnd, getById_logAuthAction, hg]
  by_cases h5 : 5 ≤ u.login_attempts + 1
  · rw [if_pos h5]
    refine ⟨_, rfl, rfl, ?_⟩
    intro hlt
    exact absurd h5 (Nat.not_le.mpr hlt)
  · rw [if_neg h5]
    refine ⟨_, rfl, rfl, ?_⟩
    intro _
    rcases hinv with h | h
    · exact h
    · exact absurd (Nat.le_succ_of_le h) h5

/-- C4: every successful authentication resets the account's
failed-attempt counter to 0, clears `locked_until`, and updates the
last-login timestamp, regardless of the prior lockout state; the
hypothesis `lockActive now u = false` covers both an unset lock and a
lock whose `locked_until` has already passed. -/
theorem c4_success_resets (hash : String → String → String) (now : Nat)
    (s : AuthState) (username password : String) (ip ua : Option String) (u : User)
    (huniq : UniqueIds s)
    (hfind : findActiveUser s username = some u)
    (hnolock : lockActive now u = false)
    (hmatch : hash password u.password_salt = u.password_hash) :
    (∃ info, (authenticate hash now s username password ip ua).fst = some info) ∧
    getById (authenticate hash now s username password ip ua).snd u.id =
      some { u with last_login := some now, login_attempts := 0, locked_until := none } := by
  have heq := authenticate_success_eq hash now s username password ip ua u hfind hnolock hmatch
  refine ⟨⟨_, by rw [heq]⟩, ?_⟩
  have hsnd : (authenticate hash now s username password ip ua).snd =
      logAuthAction (updateLastLogin now (resetLoginAttempts s u.id) u.id)
        (some u.id) username "login" true ip ua := by
    rw [heq]
  rw [hsnd, getById_logAuthAction]
  have hu : u ∈ s.users := findActiveUser_mem s username u hfind
  have huniq1 : UniqueIds (resetLoginAttempts s u.id) :=
    uniqueIds_updateUserById s u.id _ (fun v => rfl) huniq
  have hmem1 : ({ u with login_attempts := 0, locked_until := none } : User) ∈
      (resetLoginAttempts s u.id).users :=
    mem_updateUserById s u _ hu
  exact getById_updateUserById (resetLoginAttempts s u.id)
    { u with login_attempts := 0, locked_until := none }
    (fun v => { v with last_login := some now }) rfl huniq1 hmem1

/-- C5: the externally observable result of `authenticate` is the same
generic failure (the value `none`, together with a `login` failure audit
entry) for a username that resolves to no active account and for an
existing account given a wrong password; and after `delete_user`
succeeds, the deleted username resolves to no account, so `authenticate`
behaves exactly as for a never-existing username. -/
theorem c5_generic_failure (hash : String → String → String) (now : Nat)
    (ip ua : Option String) :
    (∀ s username password, findActiveUser s username = none →
      authenticate hash now s username password ip ua =
        (none, logAuthAction s none username "login" false ip ua)) ∧
    (∀ s username password u, findActiveUser s username = some u →
      lockActive now u = false →
      ¬ hash password u.password_salt = u.password_hash →
      (authenticate hash now s username password ip ua).fst = none) ∧
    (∀ s username s2, deleteUser s username = (true, s2) →
      findActiveUser s2 username = none) := by
  refine ⟨?_, ?_, ?_⟩
  · intro s username password h
    exact authenticate_notfound hash now s username password ip ua h
  · intro s username password u hfind hlock hwrong
    rw [authenticate_wrong_eq hash now s username password ip ua u hfind hlock hwrong]
  · intro s username s2 hdel
    unfold deleteUser at hdel
    by_cases hc : 0 < s.users.countP fun v => v.username == username
    · rw [if_pos hc] at hdel
      have hs2 : ({ s with users := s.users.filter fun v => !(v.username == username) }
          : AuthState) = s2 := congrArg Prod.snd hdel
      rw [← hs2]
      apply List.find?_eq_none.mpr
      intro x hx
      have hx2 := List.mem_filter.mp hx
      have hb : (x.username == username) = false := by
        have := hx2.2
        simpa using this
      simp [hb]
    · rw [if_neg hc] at hdel
      have hf : false = true := congrArg Prod.fst hdel
      cases hf

/-- C6: for every account, `change_password` with a wrong old password
returns failure and leaves the stored password_hash and password_salt
fields unchanged, so that `authenticate` with the correct old password
still succeeds after the failed change attempt, provided the failed
attempts have not locked the account (resulting counter below 5). -/
theorem c6_failed_change_preserves_credentials
    (hash : String → String → String) (now now2 : Nat) (newSalt : String)
    (s : AuthState) (username bad_old good_old new_password : String)
    (ip ua : Option String) (u : User)
    (huniq : UniqueIds s)
    (hfind : findActiveUser s username = some u)
    (hnone : u.locked_until = none)
    (hwrong : ¬ hash bad_old u.password_salt = u.password_hash)
    (hgood : hash good_old u.password_salt = u.password_hash)
    (hfew : u.login_attempts + 1 < 5) :
    (changePassword hash now newSalt s username bad_old new_password).fst = false ∧
    (∃ u1, getById (changePassword hash now newSalt s username bad_old new_password).snd u.id
        = some u1 ∧
      u1.password_hash = u.password_hash ∧ u1.password_salt = u.password_salt) ∧
    ∃ info, (authenticate hash now2
        (changePassword hash now newSalt s username bad_old new_password).snd
        username good_old ip ua).fst = some info := by
  have hnl := lockActive_none now u hnone
  have hu := findActiveUser_mem s username u hfind
  have hauth := authenticate_wrong_eq hash now s username bad_old none none u hfind hnl hwrong
  have hcp : changePassword hash now newSalt s username bad_old new_password =
      (false, logAuthAction (incrementLoginAttempts now s u.id)
        (some u.id) username "login" false none none) := by
    unfold changePassword
    rw [hauth]
  have hinc := increment_no_lock now s u huniq hu hfew
  have hsnd : (changePassword hash now newSalt s username bad_old new_password).snd =
      logAuthAction (incrementLoginAttempts now s u.id)
        (some u.id) username "login" false none none := by
    rw [hcp]
  refine ⟨by rw [hcp], ⟨{ u with login_attempts := u.login_attempts + 1 }, ?_, rfl, rfl⟩, ?_⟩
  · rw [hsnd, getById_logAuthAction, hinc]
    exact getById_updateUserById s u _ rfl huniq hu
  · have hfind2 : findActiveUser
        (changePassword hash now newSalt s username bad_old new_password).snd username
        = some { u with login_attempts := u.login_attempts + 1 } := by
      rw [hsnd, findActiveUser_logAuthAction, hinc]
      exact findActiveUser_updateUserById s username u _ rfl rfl huniq hfind
    have hnl2 : lockActive now2 ({ u with login_attempts := u.login_attempts + 1 } : User)
        = false := lockActive_none now2 _ hnone
    have hmatch2 : hash good_old
        ({ u with login_attempts := u.login_attempts + 1 } : User).password_salt
        = ({ u with login_attempts := u.login_attempts + 1 } : User).password_hash := hgood
    exact ⟨_, by rw [authenticate_success_eq hash now2
      (changePassword hash now newSalt s username bad_old new_password).snd
      username good_old ip ua
      { u with login_attempts := u.login_attempts + 1 } hfind2 hnl2 hmatch2]⟩

/-- C10: after an account's lock has expired (locked_until set but
now ≥ locked_until, counter at 5 or more), a single further
wrong-password authenticate increments the counter and immediately sets
a fresh `locked_until` of now + 30 minutes. -/
theorem c10_relock_after_expiry (hash : String → String → String) (now : Nat)
    (s : AuthState) (username password : String) (ip ua : Option String)
    (u : User) (t : Nat)
    (huniq : UniqueIds s)
    (hfind : findActiveUser s username = some u)
    (hset : u.locked_until = some t) (hexp : t ≤ now)
    (hmany : 5 ≤ u.login_attempts)
    (hwrong : ¬ hash password u.password_salt = u.password_hash) :
    (authenticate hash now s username password ip ua).fst = none ∧
    getById (authenticate hash now s username password ip ua).snd u.id =
      some { u with login_attempts := u.login_attempts + 1,
                    locked_until := some (now + 30) } := by
  have hnl := lockActive_expired now t u hset hexp
  have heq := authenticate_wrong_eq hash now s username password ip ua u hfind hnl hwrong
  refine ⟨by rw [heq], ?_⟩
  have hsnd : (authenticate hash now s username password ip ua).snd =
      logAuthAction (incrementLoginAttempts now s u.id)
        (some u.id) username "login" false ip ua := by
    rw [heq]
  have hu : u ∈ s.users := findActiveUser_mem s username u hfind
  have hg := getById_increment now s u huniq hu
  rw [hsnd, getById_logAuthAction, hg, if_pos (Nat.le_succ_of_le hmany)]
  rfl

/-- C7 counterexample: with the store already holding the account bob,
`create_user` for the same username fails — but it leaves the entire
state unchanged, in particular the audit log (empty before, empty
after), so no `create_user` success=false audit entry is appended for
the attempt, contrary to the claim.  The `sqlite3.IntegrityError`
handler (lines 204-206) returns before `_log_auth_action` is reached. -/
theorem c7_counterexample :
    (createUser whash "S2" cState "bob" "pw2" "user" none none).fst = false ∧
    (createUser whash "S2" cState "bob" "pw2" "user" none none).snd = cState ∧
    cState.logs = [] := by
  decide

/-- C7 amended: whenever `create_user` fails because the username
already exists, no account row is persisted and no audit entry is
appended either — the duplicate-username attempt returns failure with
the store completely unchanged. -/
theorem c7_amended_duplicate_rejected (hash : String → String → String) (salt : String)
    (s : AuthState) (username password role : String) (fn em : Option String)
    (hrole : validRole role = true)
    (hdup : (s.users.any fun v => v.username == username) = true) :
    createUser hash salt s username password role fn em = (false, s) := by
  unfold createUser
  rw [hrole, hdup]
  rfl

/-- C8 counterexample: a `change_password` call on the stored account
bob with a wrong old password returns failure, appends exactly one
audit entry — the inner authentication's `login` failure — and appends
no entry tagged change_password at all, contrary to the claim that
every call appends exactly one change_password entry mirroring the
outcome. -/
theorem c8_counterexample :
    (changePassword whash 0 "T" cState "bob" "bad" "new").fst = false ∧
    ((changePassword whash 0 "T" cState "bob" "bad" "new").snd.logs.countP
      fun e => e.action == "change_password") = 0 ∧
    (changePassword whash 0 "T" cState "bob" "bad" "new").snd.logs.length = 1 := by
  decide

/-- C8 amended: a `change_password` call whose inner authentication
succeeds appends exactly one change_password entry, with success=true
(preceded by the inner `login` success entry); a call failing because
the old password is wrong appends no change_password entry at all —
only the inner authentication's `login` failure entry. -/
theorem c8_amended_audit (hash : String → String → String) (now : Nat) (newSalt : String)
    (s : AuthState) (username old_password new_password : String) (u : User)
    (hfind : findActiveUser s username = some u)
    (hlock : lockActive now u = false) :
    (hash old_password u.password_salt = u.password_hash →
      (changePassword hash now newSalt s username old_password new_password).fst = true ∧
      (changePassword hash now newSalt s username old_password new_password).snd.logs =
        s.logs ++
          [{ user_id := some u.id, username := username, action := "login",
             ip_address := none, user_agent := none, success := true },
           { user_id := some u.id, username := username, action := "change_password",
             ip_address := none, user_agent := none, success := true }]) ∧
    (¬ hash old_password u.password_salt = u.password_hash →
      (changePassword hash now newSalt s username old_password new_password).fst = false ∧
      (changePassword hash now newSalt s username old_password new_password).snd.logs =
        s.logs ++
          [{ user_id := some u.id, username := username, action := "login",
             ip_address := none, user_agent := none, success := false }]) := by
  constructor
  · intro hmatch
    have hauth := authenticate_success_eq hash now s username old_password none none u
      hfind hlock hmatch
    constructor
    · unfold changePassword
      rw [hauth]
    · unfold changePassword
      rw [hauth]
      show (s.logs ++
          [{ user_id := some u.id, username := username, action := "login",
             ip_address := none, user_agent := none, success := true }]) ++
          [{ user_id := some u.id, username := username, action := "change_password",
             ip_address := none, user_agent := none, success := true }] = _
      rw [List.append_assoc]
      rfl
  · intro hwrong
    have hauth := authenticate_wrong_eq hash now s username old_password none none u
      hfind hlock hwrong
    constructor
    · unfold changePassword
      rw [hauth]
    · unfold changePassword
      rw [hauth]
      show (incrementLoginAttempts now s u.id).logs ++
          [{ user_id := some u.id, username := username, action := "login",
             ip_address := none, user_agent := none, success := false }] = _
      rw [increment_logs]

/-- C9: a `create_user` call or an `update_user` call supplying a role
value outside {admin, user} returns failure and performs no mutation of
the store: `create_user` rejects the role before writing anything, and
an `update_user` carrying an invalid role (against a username that has
a row, so the CHECK constraint fires) leaves every field of the target
account unchanged, including any allow-listed fields supplied in the
same call — the returned state is the input state. -/
theorem c9_invalid_role_no_mutation (hash : String → String → String) (salt : String)
    (s : AuthState) (username password role : String) (fn em : Option String)
    (k : UserUpdate)
    (hrole : validRole role = false) :
    createUser hash salt s username password role fn em = (false, s) ∧
    (∀ r, k.role = some r → validRole r = false →
      (s.users.any fun v => v.username == username) = true →
      updateUser s username k = (false, s)) := by
  constructor
  · unfold createUser
    rw [hrole]
    rfl
  · intro r hr hvr hexist
    have hne : k.isEmpty = false := by
      unfold UserUpdate.isEmpty
      rw [hr]
      simp
    have hviol : roleViolation k = true := by
      simp [roleViolation, hr, hvr]
    unfold updateUser
    rw [hne, hexist, hviol]
    rfl

/-! ### Witnesses: each claim theorem applied at a concrete input -/

/-- Witness for C1 at the empty store with role admin. -/
theorem c1_witness :
    (createUser whash "A" cState0 "alice" "pw" "admin" none none).fst = true ∧
    ∃ info, (authenticate whash 5 (createUser whash "A" cState0 "alice" "pw" "admin" none none).snd
        "alice" "pw" none none).fst = some info ∧
      info.username = "alice" ∧
      info.role = "admin" ∧
      info.is_admin = ("admin" == "admin") ∧
      info.permissions.can_create = ("admin" == "admin") ∧
      info.permissions.can_read = true ∧
      info.permissions.can_update = true ∧
      info.permissions.can_delete = ("admin" == "admin") ∧
      info.permissions.can_manage_users = ("admin" == "admin") ∧
      info.permissions.can_manage_personnel = ("admin" == "admin") ∧
      info.permissions.can_manage_vehicles = ("admin" == "admin") ∧
      info.permissions.can_manage_routes = ("admin" == "admin") ∧
      info.permissions.can_manage_journal = true ∧
      info.permissions.can_view_reports = true ∧
      info.permissions.can_generate_reports = true ∧
      info.permissions.can_export_data = ("admin" == "admin") ∧
      info.permissions.can_configure_system = ("admin" == "admin") ∧
      info.permissions.can_view_logs = ("admin" == "admin") ∧
      info.permissions.can_backup_restore = ("admin" == "admin") :=
  c1_create_then_login whash "A" 5 cState0 "alice" "pw" "admin" none none none none
    (by intro v hv; simp [cState0] at hv) (Or.inl rfl)

/-- Witness for C2: the fifth failure on the four-failures account locks
it until minute 130, and a blocked account rejects every password. -/
theorem c2_witness :
    ((authenticate whash 100 cState4 "bob" "bad" none none).fst = none ∧
     getById (authenticate whash 100 cState4 "bob" "bad" none none).snd cUser4.id =
       some { cUser4 with login_attempts := 5, locked_until := some (100 + 30) }) ∧
    ((authenticate whash 100 cStateL "bob" "pw1" none none).fst = none ∧
     (authenticate whash 100 cStateL "bob" "pw1" none none).snd.users = cStateL.users ∧
     authenticate whash 100 cStateL "bob" "zzz" none none =
       authenticate whash 100 cStateL "bob" "pw1" none none) := by
  have ha := (c2_lockout_boundary whash 100 cState4 "bob" "bad" none none cUser4
    (by simp [UniqueIds, cState4]) (by decide)).1 rfl rfl (by decide)
  have hb := (c2_lockout_boundary whash 100 cStateL "bob" "pw1" none none cUserL
    (by simp [UniqueIds, cStateL]) (by decide)).2 200 rfl (by decide)
  exact ⟨ha, hb.1, hb.2.1, hb.2.2 whash "zzz"⟩

/-- Witness for C3 at the zero-failures account. -/
theorem c3_witness :
    (authenticate whash 7 cState "bob" "bad" none none).fst = none ∧
    ∃ u1, getById (authenticate whash 7 cState "bob" "bad" none none).snd cUser.id = some u1 ∧
      u1.login_attempts = cUser.login_attempts + 1 ∧
      (u1.login_attempts < 5 → u1.locked_until = none) :=
  c3_wrong_password_increments whash 7 cState "bob" "bad" none none cUser
    (by simp [UniqueIds, cState]) (by decide) (by decide) (Or.inl rfl) (by decide)

/-- Witness for C4: the correct password at minute 300, after the lock
expired at minute 200, succeeds and clears the lockout state. -/
theorem c4_witness :
    (∃ info, (authenticate whash 300 cStateL "bob" "pw1" none none).fst = some info) ∧
    getById (authenticate whash 300 cStateL "bob" "pw1" none none).snd cUserL.id =
      some { cUserL with last_login := some 300, login_attempts := 0, locked_until := none } :=
  c4_success_resets whash 300 cStateL "bob" "pw1" none none cUserL
    (by simp [UniqueIds, cStateL]) (by decide) (by decide) (by decide)

/-- Witness for C5: unknown username and wrong password give the same
observable failure, and a deleted username resolves to no account. -/
theorem c5_witness :
    (authenticate whash 3 cState0 "ghost" "x" none none =
      (none, logAuthAction cState0 none "ghost" "login" false none none)) ∧
    (authenticate whash 3 cState "bob" "bad" none none).fst = none ∧
    findActiveUser { cState with users := ([] : List User) } "bob" = none := by
  have h := c5_generic_failure whash 3 none none
  exact ⟨h.1 cState0 "ghost" "x" (by decide),
         h.2.1 cState "bob" "bad" cUser (by decide) (by decide) (by decide),
         h.2.2 cState "bob" { cState with users := ([] : List User) } (by decide)⟩

/-- Witness for C6: a failed change with a wrong old password leaves the
stored credentials usable by a later authenticate. -/
theorem c6_witness :
    (changePassword whash 9 "T2" cState "bob" "bad" "new2").fst = false ∧
    (∃ u1, getById (changePassword whash 9 "T2" cState "bob" "bad" "new2").snd cUser.id
        = some u1 ∧
      u1.password_hash = cUser.password_hash ∧ u1.password_salt = cUser.password_salt) ∧
    ∃ info, (authenticate whash 11 (changePassword whash 9 "T2" cState "bob" "bad" "new2").snd
        "bob" "pw1" none none).fst = some info :=
  c6_failed_change_preserves_credentials whash 9 11 "T2" cState "bob" "bad" "pw1" "new2"
    none none cUser (by simp [UniqueIds, cState]) (by decide) rfl
    (by decide) (by decide) (by decide)

/-- Witness for the amended C7 at a concrete duplicate username. -/
theorem c7_amended_witness :
    createUser whash "S2" cState "bob" "pw9" "user" none none = (false, cState) :=
  c7_amended_duplicate_rejected whash "S2" cState "bob" "pw9" "user" none none
    (by decide) (by decide)

/-- Witness for the amended C8 on both outcomes at concrete inputs. -/
theorem c8_amended_witness :
    ((changePassword whash 7 "T" cState "bob" "pw1" "zz").fst = true ∧
     (changePassword whash 7 "T" cState "bob" "pw1" "zz").snd.logs =
       cState.logs ++
         [{ user_id := some cUser.id, username := "bob", action := "login",
            ip_address := none, user_agent := none, success := true },
          { user_id := some cUser.id, username := "bob", action := "change_password",
            ip_address := none, user_agent := none, success := true }]) ∧
    ((changePassword whash 7 "T" cState "bob" "bad2" "zz").fst = false ∧
     (changePassword whash 7 "T" cState "bob" "bad2" "zz").snd.logs =
       cState.logs ++
         [{ user_id := some cUser.id, username := "bob", action := "login",
            ip_address := none, user_agent := none, success := false }]) := by
  have h1 := c8_amended_audit whash 7 "T" cState "bob" "pw1" "zz" cUser (by decide) (by decide)
  have h2 := c8_amended_audit whash 7 "T" cState "bob" "bad2" "zz" cUser (by decide) (by decide)
  exact ⟨h1.1 (by decide), h2.2 (by decide)⟩

/-- Witness for C9 at a concrete invalid role value. -/
theorem c9_witness :
    createUser whash "S3" cState "bob" "pw" "root" none none = (false, cState) ∧
    updateUser cState "bob"
      { full_name := some "B", email := none, role := some "root", is_active := none }
      = (false, cState) := by
  have h := c9_invalid_role_no_mutation whash "S3" cState "bob" "pw" "root" none none
    { full_name := some "B", email := none, role := some "root", is_active := none }
    (by decide)
  exact ⟨h.1, h.2 "root" rfl (by decide) (by decide)⟩

/-- Witness for C10: one wrong password at minute 300, after the lock
expired at minute 200 with the counter at 5, re-locks until minute 330. -/
theorem c10_witness :
    (authenticate whash 300 cStateL "bob" "bad" none none).fst = none ∧
    getById (authenticate whash 300 cStateL "bob" "bad" none none).snd cUserL.id =
      some { cUserL with login_attempts := cUserL.login_attempts + 1,
                         locked_until := some (300 + 30) } :=
  c10_relock_after_expiry whash 300 cStateL "bob" "bad" none none cUserL 200
    (by simp [UniqueIds, cStateL]) (by decide) rfl (by decide) (by decide) (by decide)

end Autopark
